import Mathlib

/-
Verification of the cauchy CRDT library: a shallow embedding of the
vector clock, UID, G-Counter, LWW-Register, G-Set, 2P-Set, OR-Set and
node-context operations, translated from the C sources
(src/core/vclock.c, src/core/cauchy.c, src/core/types.c,
src/crdt/g_counter.c, src/crdt/lww_register.c, src/crdt/g_set.c,
src/crdt/2p_set.c, src/crdt/or_set.c), together with theorems settling
the specification claims.

Modelling conventions:
- byte strings are List Nat (each element a byte value); memcmp equality
  is list equality;
- u64 / u32 arithmetic that can overflow is taken modulo 2 ^ 64 / 2 ^ 32
  explicitly where the source can wrap (vector-clock increment, FNV-1a);
- fixed C arrays (entries[CAUCHY_MAX_NODES], counts[CAUCHY_MAX_NODES],
  value[256]) are lists whose length is constrained by well-formedness
  hypotheses where a claim needs it;
- heap allocation never fails in the model, so the NOMEM paths of the
  source are not taken;
- functions that mutate through a pointer are state-passing: they return
  the new state (paired with the result code when the source returns one).
-/

set_option maxRecDepth 8192

def CAUCHY_MAX_NODES : Nat := 64

def CAUCHY_LWW_MAX_VALUE_SIZE : Nat := 256

def U64_MOD : Nat := 2 ^ 64

/-- Result codes from include/cauchy/types.h. -/
inductive CauchyResult where
  | OK
  | ERR_NOMEM
  | ERR_INVALID
  | ERR_NOTFOUND
  | ERR_EXISTS
  | ERR_FULL
  | ERR_EMPTY
  | ERR_TIMEOUT
  | ERR_CONCURRENT
  | ERR_CAUSAL
  | ERR_NETWORK
  | ERR_INTERNAL
  deriving DecidableEq, Repr

/-- Causality relationship, include/cauchy/types.h. -/
inductive CauchyCausality where
  | HAPPENS_BEFORE
  | CONCURRENT
  | HAPPENS_AFTER
  | EQUAL
  deriving DecidableEq, Repr

/-- UID: (node_id, timestamp) pair, include/cauchy/types.h. -/
structure CauchyUID where
  node_id : Nat
  timestamp : Nat
  deriving DecidableEq, Repr

def cauchy_uid_create (node ts : Nat) : CauchyUID :=
  { node_id := node, timestamp := ts }

/-- cauchy_uid_compare from include/cauchy/types.h. -/
def cauchy_uid_compare (a b : CauchyUID) : Int :=
  if a.timestamp ≠ b.timestamp then
    if a.timestamp < b.timestamp then -1 else 1
  else if a.node_id ≠ b.node_id then
    if a.node_id < b.node_id then -1 else 1
  else 0

def cauchy_uid_equals (a b : CauchyUID) : Bool :=
  a.node_id == b.node_id && a.timestamp == b.timestamp

/-- Vector clock: entries[CAUCHY_MAX_NODES] plus num_nodes
(include/cauchy/vclock.h). -/
structure VClock where
  entries : List Nat
  num_nodes : Nat
  deriving DecidableEq, Repr

/-- cauchy_vclock_init: zero all entries, clamp num_nodes to MAX_NODES. -/
def cauchy_vclock_init (num_nodes : Nat) : VClock :=
  { entries := List.replicate CAUCHY_MAX_NODES 0
    num_nodes := if num_nodes ≤ CAUCHY_MAX_NODES then num_nodes else CAUCHY_MAX_NODES }

/-- cauchy_vclock_increment: bump entries[node_id] (a u64, so modulo 2^64);
out-of-range node_id is a no-op. -/
def cauchy_vclock_increment (vc : VClock) (node_id : Nat) : VClock :=
  if node_id ≥ vc.num_nodes then vc
  else { vc with entries := vc.entries.set node_id ((vc.entries.getD node_id 0 + 1) % U64_MOD) }

/-- cauchy_vclock_get: entries[node_id], 0 when out of range. -/
def cauchy_vclock_get (vc : VClock) (node_id : Nat) : Nat :=
  if node_id ≥ vc.num_nodes then 0 else vc.entries.getD node_id 0

/-- The ternary in the compare loop of src/core/vclock.c:
entries beyond num_nodes read as zero. -/
def vclockEntryAt (vc : VClock) (i : Nat) : Nat :=
  if i < vc.num_nodes then vc.entries.getD i 0 else 0

/-- cauchy_vclock_compare from src/core/vclock.c: two accumulated flags
a_less / a_greater over a scan of max(num_nodes) entries. -/
def cauchy_vclock_compare (a b : VClock) : CauchyCausality :=
  let max_nodes := if a.num_nodes > b.num_nodes then a.num_nodes else b.num_nodes
  let flags := (List.range max_nodes).foldl
    (fun (p : Bool × Bool) i =>
      (p.1 || decide (vclockEntryAt a i < vclockEntryAt b i),
       p.2 || decide (vclockEntryAt a i > vclockEntryAt b i)))
    (false, false)
  if !flags.1 && !flags.2 then CauchyCausality.EQUAL
  else if flags.1 && !flags.2 then CauchyCausality.HAPPENS_BEFORE
  else if !flags.1 && flags.2 then CauchyCausality.HAPPENS_AFTER
  else CauchyCausality.CONCURRENT

def cauchy_vclock_equals (a b : VClock) : Bool :=
  cauchy_vclock_compare a b == CauchyCausality.EQUAL

/-- G-Counter: counts[CAUCHY_MAX_NODES] plus num_nodes
(include/cauchy/crdt/g_counter.h). -/
structure GCounter where
  counts : List Nat
  num_nodes : Nat
  deriving DecidableEq, Repr

/-- cauchy_gcounter_init: zero all counts, clamp num_nodes to MAX_NODES. -/
def cauchy_gcounter_init (num_nodes : Nat) : GCounter :=
  { counts := List.replicate CAUCHY_MAX_NODES 0
    num_nodes := if num_nodes ≤ CAUCHY_MAX_NODES then num_nodes else CAUCHY_MAX_NODES }

/-- cauchy_gcounter_merge from src/crdt/g_counter.c: loop i over
max(num_nodes), copying src.counts[i] into dst when i is in src range and
src exceeds dst; num_nodes grows to the max. -/
def cauchy_gcounter_merge (dst src : GCounter) : GCounter :=
  { counts := (List.range (if dst.num_nodes > src.num_nodes then dst.num_nodes else src.num_nodes)).foldl
      (fun cs i =>
        if i < src.num_nodes ∧ src.counts.getD i 0 > cs.getD i 0
        then cs.set i (src.counts.getD i 0) else cs)
      dst.counts
    num_nodes := if src.num_nodes > dst.num_nodes then src.num_nodes else dst.num_nodes }

/-- cauchy_gcounter_equals: num_nodes must agree, then counts agree on the
first num_nodes entries. -/
def cauchy_gcounter_equals (a b : GCounter) : Bool :=
  if a.num_nodes ≠ b.num_nodes then false
  else (List.range a.num_nodes).all fun i => a.counts.getD i 0 == b.counts.getD i 0

/-- Concrete G-Counter used to instantiate the merge-commutativity claim. -/
def gcWitnessA : GCounter := ⟨[5, 1] ++ List.replicate 62 0, 2⟩

/-- Second concrete G-Counter for the merge-commutativity claim. -/
def gcWitnessB : GCounter := ⟨[2, 7, 4] ++ List.replicate 61 0, 3⟩

/-- LWW-Register: fixed value[CAUCHY_LWW_MAX_VALUE_SIZE] buffer plus
value_size, timestamp, node_id (include/cauchy/crdt/lww_register.h). -/
structure LWWRegister where
  value : List Nat
  value_size : Nat
  timestamp : Nat
  node_id : Nat
  deriving DecidableEq, Repr

/-- cauchy_lww_init: memset the register to zero. -/
def cauchy_lww_init : LWWRegister :=
  { value := List.replicate CAUCHY_LWW_MAX_VALUE_SIZE 0
    value_size := 0
    timestamp := 0
    node_id := 0 }

/-- memcpy(dst, src, n) into a buffer: the first n bytes come from src,
the tail of dst is kept. -/
def copyIntoBuffer (dst src : List Nat) (n : Nat) : List Nat :=
  src.take n ++ dst.drop n

/-- cauchy_lww_set from src/crdt/lww_register.c. The value pointer may be
null (modelled as none); the write is accepted exactly when the incoming
(timestamp, node_id) is lexicographically greater. -/
def cauchy_lww_set (reg : LWWRegister) (value : Option (List Nat)) (value_size : Nat)
    (timestamp node_id : Nat) : CauchyResult × LWWRegister :=
  if value_size > CAUCHY_LWW_MAX_VALUE_SIZE then (CauchyResult.ERR_FULL, reg)
  else if timestamp > reg.timestamp ∨ (timestamp = reg.timestamp ∧ node_id > reg.node_id) then
    (CauchyResult.OK,
      { value :=
          match value with
          | some v => if value_size > 0 then copyIntoBuffer reg.value v value_size else reg.value
          | none => reg.value
        value_size := value_size
        timestamp := timestamp
        node_id := node_id })
  else (CauchyResult.OK, reg)

/-- cauchy_lww_merge: copy src over dst exactly when src's
(timestamp, node_id) is lexicographically greater. -/
def cauchy_lww_merge (dst src : LWWRegister) : LWWRegister :=
  if src.timestamp > dst.timestamp ∨ (src.timestamp = dst.timestamp ∧ src.node_id > dst.node_id)
  then src else dst

/-- cauchy_lww_equals: timestamp, node_id, value_size and the first
value_size value bytes must agree. -/
def cauchy_lww_equals (a b : LWWRegister) : Bool :=
  a.timestamp == b.timestamp && a.node_id == b.node_id && a.value_size == b.value_size &&
    a.value.take a.value_size == b.value.take a.value_size

/-- Concrete register (value [9], ts 5, node 2) used to instantiate the
dropped-write claim. -/
def lwwWitnessReg : LWWRegister := (cauchy_lww_set cauchy_lww_init (some [9]) 1 5 2).2

/-- Node context from include/cauchy/cauchy.h: node_id, local vector
clock, op_counter (the pool and hazard domain play no role in the
modelled operations). -/
structure CauchyContext where
  node_id : Nat
  local_clock : VClock
  op_counter : Nat
  deriving DecidableEq, Repr

/-- cauchy_context_create: zeroed context with a MAX_NODES-wide clock. -/
def cauchy_context_create (node_id : Nat) : CauchyContext :=
  { node_id := node_id
    local_clock := cauchy_vclock_init CAUCHY_MAX_NODES
    op_counter := 0 }

/-- cauchy_context_gen_uid from src/core/cauchy.c: increment the local
clock at the own node, bump op_counter, return
(node_id, own clock entry after the increment). -/
def cauchy_context_gen_uid (ctx : CauchyContext) : CauchyUID × CauchyContext :=
  let clock2 := cauchy_vclock_increment ctx.local_clock ctx.node_id
  (cauchy_uid_create ctx.node_id (cauchy_vclock_get clock2 ctx.node_id),
   { ctx with local_clock := clock2, op_counter := ctx.op_counter + 1 })

/-- Little-endian byte encoding of a machine integer of the given byte
width, as memcpy of a u32 / u64 / usize produces on the wire. -/
def natToBytes : Nat → Nat → List Nat
  | 0, _ => []
  | n + 1, x => x % 256 :: natToBytes n (x / 256)

/-- Little-endian byte decoding, as memcpy from the wire reads it back. -/
def bytesToNat : List Nat → Nat
  | [] => 0
  | b :: bs => b + 256 * bytesToNat bs

def cauchy_vclock_serialized_size (vc : VClock) : Nat :=
  4 + vc.num_nodes * 8

/-- cauchy_vclock_serialize: 0 when the buffer is too small, else the
byte count together with [u32 num_nodes][u64 x num_nodes] in host
(little-endian) order. -/
def cauchy_vclock_serialize (vc : VClock) (buffer_size : Nat) : Nat × List Nat :=
  if buffer_size < cauchy_vclock_serialized_size vc then (0, [])
  else (cauchy_vclock_serialized_size vc,
    natToBytes 4 vc.num_nodes ++
      (((List.range vc.num_nodes).map (fun i => vc.entries.getD i 0)).map
        (natToBytes 8)).flatten)

/-- cauchy_vclock_deserialize: reject short buffers and num_nodes beyond
MAX_NODES, else re-init the clock and copy the entries in. -/
def cauchy_vclock_deserialize (vc : VClock) (buf : List Nat) : CauchyResult × VClock :=
  if buf.length < 4 then (CauchyResult.ERR_INVALID, vc)
  else
    let num_nodes := bytesToNat (buf.take 4)
    if num_nodes > CAUCHY_MAX_NODES then (CauchyResult.ERR_INVALID, vc)
    else if buf.length < 4 + num_nodes * 8 then (CauchyResult.ERR_INVALID, vc)
    else
      (CauchyResult.OK,
        { entries := (List.range num_nodes).map
            (fun i => bytesToNat (((buf.drop 4).drop (8 * i)).take 8))
            ++ List.replicate (CAUCHY_MAX_NODES - num_nodes) 0
          num_nodes := num_nodes })

def cauchy_gcounter_serialized_size (gc : GCounter) : Nat :=
  4 + gc.num_nodes * 8

/-- cauchy_gcounter_serialize: same layout as the vector clock,
[u32 num_nodes][u64 x num_nodes]. -/
def cauchy_gcounter_serialize (gc : GCounter) (buffer_size : Nat) : Nat × List Nat :=
  if buffer_size < cauchy_gcounter_serialized_size gc then (0, [])
  else (cauchy_gcounter_serialized_size gc,
    natToBytes 4 gc.num_nodes ++
      (((List.range gc.num_nodes).map (fun i => gc.counts.getD i 0)).map
        (natToBytes 8)).flatten)

/-- cauchy_gcounter_deserialize from src/crdt/g_counter.c. -/
def cauchy_gcounter_deserialize (gc : GCounter) (buf : List Nat) : CauchyResult × GCounter :=
  if buf.length < 4 then (CauchyResult.ERR_INVALID, gc)
  else
    let num_nodes := bytesToNat (buf.take 4)
    if num_nodes > CAUCHY_MAX_NODES then (CauchyResult.ERR_INVALID, gc)
    else if buf.length < 4 + num_nodes * 8 then (CauchyResult.ERR_INVALID, gc)
    else
      (CauchyResult.OK,
        { counts := (List.range num_nodes).map
            (fun i => bytesToNat (((buf.drop 4).drop (8 * i)).take 8))
            ++ List.replicate (CAUCHY_MAX_NODES - num_nodes) 0
          num_nodes := num_nodes })

def cauchy_lww_serialized_size (reg : LWWRegister) : Nat :=
  8 + 8 + 8 + reg.value_size

/-- cauchy_lww_serialize: [u64 timestamp][u64 node_id][usize value_size]
then value_size value bytes. -/
def cauchy_lww_serialize (reg : LWWRegister) (buffer_size : Nat) : Nat × List Nat :=
  if buffer_size < cauchy_lww_serialized_size reg then (0, [])
  else (cauchy_lww_serialized_size reg,
    natToBytes 8 reg.timestamp ++ natToBytes 8 reg.node_id ++
      natToBytes 8 reg.value_size ++ reg.value.take reg.value_size)

/-- cauchy_lww_deserialize from src/crdt/lww_register.c: the three header
fields are written into the register before the size validation, as in
the source. -/
def cauchy_lww_deserialize (reg : LWWRegister) (buf : List Nat) : CauchyResult × LWWRegister :=
  if buf.length < 24 then (CauchyResult.ERR_INVALID, reg)
  else
    let ts := bytesToNat (buf.take 8)
    let node := bytesToNat ((buf.drop 8).take 8)
    let vsize := bytesToNat ((buf.drop 16).take 8)
    if vsize > CAUCHY_LWW_MAX_VALUE_SIZE then
      (CauchyResult.ERR_INVALID,
        { reg with timestamp := ts, node_id := node, value_size := vsize })
    else if buf.length < 24 + vsize then
      (CauchyResult.ERR_INVALID,
        { reg with timestamp := ts, node_id := node, value_size := vsize })
    else
      (CauchyResult.OK,
        { value := copyIntoBuffer reg.value ((buf.drop 24).take vsize) vsize
          value_size := vsize
          timestamp := ts
          node_id := node })

/-- Concrete vector clock for instantiating the round-trip claim. -/
def vcWitness : VClock := ⟨[3, 2, 1] ++ List.replicate 61 0, 3⟩

/-- Concrete LWW register for instantiating the round-trip claim. -/
def lwwSerWitness : LWWRegister := (cauchy_lww_set cauchy_lww_init (some [65, 66]) 2 7 4).2

/-- FNV-1a 64-bit hash over the payload bytes (hash_data in both
src/crdt/g_set.c and src/crdt/or_set.c); the u64 multiply is taken
modulo 2^64. -/
def hash_data (data : List Nat) : Nat :=
  data.foldl (fun h b => ((h ^^^ b) * 1099511628211) % U64_MOD) 14695981039346656037

/-- G-Set: a fixed array of hash buckets, each an open chain of elements.
A source element node carries (data, size, hash); size and hash are
functions of the byte payload, so an element is modelled as its payload
and the source's hash+size+memcmp comparison collapses to list equality. -/
structure GSet where
  buckets : List (List (List Nat))
  num_buckets : Nat
  count : Nat
  deriving DecidableEq, Repr

/-- cauchy_gset_init / cauchy_gset_create: capacity 0 defaults to 16. -/
def cauchy_gset_create (initial_capacity : Nat) : GSet :=
  { buckets := List.replicate (if initial_capacity = 0 then 16 else initial_capacity) []
    num_buckets := if initial_capacity = 0 then 16 else initial_capacity
    count := 0 }

/-- cauchy_gset_contains: scan the chain of the payload's bucket. -/
def cauchy_gset_contains (s : GSet) (data : List Nat) : Bool :=
  if data.isEmpty then false
  else (s.buckets.getD (hash_data data % s.num_buckets) []).any (fun e => e == data)

/-- cauchy_gset_add: no-op OK when the element already exists, else push a
new node at the chain head and bump count. -/
def cauchy_gset_add (s : GSet) (data : List Nat) : CauchyResult × GSet :=
  if data.isEmpty then (CauchyResult.ERR_INVALID, s)
  else
    if ((s.buckets.getD (hash_data data % s.num_buckets) []).any (fun e => e == data))
    then (CauchyResult.OK, s)
    else (CauchyResult.OK,
      { buckets := s.buckets.set (hash_data data % s.num_buckets)
          (data :: s.buckets.getD (hash_data data % s.num_buckets) [])
        num_buckets := s.num_buckets
        count := s.count + 1 })

/-- The elements cauchy_gset_iter_next visits: every chain node in bucket
order, each exactly once. -/
def gset_elems (s : GSet) : List (List Nat) := s.buckets.flatten

/-- 2P-Set: pair of G-Sets (include/cauchy/crdt/2p_set.h). -/
structure TwoPSet where
  added : GSet
  removed : GSet
  deriving DecidableEq, Repr

def cauchy_2pset_create (initial_capacity : Nat) : TwoPSet :=
  { added := cauchy_gset_create initial_capacity
    removed := cauchy_gset_create initial_capacity }

/-- cauchy_2pset_add: silently OK (cannot re-add) when the element is in
the removed set. -/
def cauchy_2pset_add (s : TwoPSet) (data : List Nat) : CauchyResult × TwoPSet :=
  if cauchy_gset_contains s.removed data then (CauchyResult.OK, s)
  else ((cauchy_gset_add s.added data).1,
    { s with added := (cauchy_gset_add s.added data).2 })

/-- cauchy_2pset_remove: only elements previously added can be removed. -/
def cauchy_2pset_remove (s : TwoPSet) (data : List Nat) : CauchyResult × TwoPSet :=
  if ¬ cauchy_gset_contains s.added data then (CauchyResult.ERR_NOTFOUND, s)
  else ((cauchy_gset_add s.removed data).1,
    { s with removed := (cauchy_gset_add s.removed data).2 })

def cauchy_2pset_contains (s : TwoPSet) (data : List Nat) : Bool :=
  cauchy_gset_contains s.added data && ! cauchy_gset_contains s.removed data

/-- cauchy_2pset_count: iterate the added set, counting elements not in
the removed set. -/
def cauchy_2pset_count (s : TwoPSet) : Nat :=
  (gset_elems s.added).foldl
    (fun c e => if ¬ cauchy_gset_contains s.removed e then c + 1 else c) 0

/-- The byte payload of the C string "x" (including the NUL, as the
_string wrappers pass strlen + 1 bytes). -/
def xBytes : List Nat := [120, 0]

/-- 2P-Set that has added and then removed "x", for the tombstone claim. -/
def twoPWitness : TwoPSet :=
  (cauchy_2pset_remove (cauchy_2pset_add (cauchy_2pset_create 16) xBytes).2 xBytes).2

/-- OR-Set entry: payload bytes, FNV-1a hash, unique tag, tombstone flag
(include/cauchy/crdt/or_set.h); size is the payload length. -/
structure ORSetEntry where
  data : List Nat
  hash : Nat
  tag : CauchyUID
  removed : Bool
  deriving DecidableEq, Repr

/-- OR-Set: hash buckets of entries plus counters and the per-set tag
source (node_id, timestamp). -/
structure ORSet where
  buckets : List (List ORSetEntry)
  num_buckets : Nat
  entry_count : Nat
  active_count : Nat
  node_id : Nat
  timestamp : Nat
  deriving DecidableEq, Repr

/-- cauchy_orset_init: capacity 0 defaults to 16. -/
def cauchy_orset_init (initial_capacity node_id : Nat) : ORSet :=
  { buckets := List.replicate (if initial_capacity = 0 then 16 else initial_capacity) []
    num_buckets := if initial_capacity = 0 then 16 else initial_capacity
    entry_count := 0
    active_count := 0
    node_id := node_id
    timestamp := 0 }

/-- cauchy_orset_add: unconditionally push a fresh entry with tag
(node_id, ++timestamp) at the chain head; bump entry_count, active_count
and the tag timestamp (a u64, so modulo 2^64). -/
def cauchy_orset_add (s : ORSet) (data : List Nat) : CauchyResult × ORSet :=
  if data.isEmpty then (CauchyResult.ERR_INVALID, s)
  else
    (CauchyResult.OK,
      { s with
        buckets := s.buckets.set (hash_data data % s.num_buckets)
          ({ data := data
             hash := hash_data data
             tag := cauchy_uid_create s.node_id ((s.timestamp + 1) % U64_MOD)
             removed := false } ::
            s.buckets.getD (hash_data data % s.num_buckets) [])
        entry_count := s.entry_count + 1
        active_count := s.active_count + 1
        timestamp := (s.timestamp + 1) % U64_MOD })

/-- The per-entry match test of cauchy_orset_remove: visible (non-removed)
entry whose hash and payload equal the argument. -/
def orsetRemoveMatches (h : Nat) (data : List Nat) (e : ORSetEntry) : Bool :=
  !e.removed && e.hash == h && e.data == data

/-- cauchy_orset_remove: tombstone every currently visible entry for the
payload in its bucket chain, decrementing active_count per match;
NOTFOUND when no entry matched. -/
def cauchy_orset_remove (s : ORSet) (data : List Nat) : CauchyResult × ORSet :=
  if data.isEmpty then (CauchyResult.ERR_INVALID, s)
  else
    ((if 0 < (s.buckets.getD (hash_data data % s.num_buckets) []).countP
          (orsetRemoveMatches (hash_data data) data)
      then CauchyResult.OK else CauchyResult.ERR_NOTFOUND),
     { s with
       buckets := s.buckets.set (hash_data data % s.num_buckets)
         ((s.buckets.getD (hash_data data % s.num_buckets) []).map
           (fun e => if orsetRemoveMatches (hash_data data) data e
                     then { e with removed := true } else e))
       active_count := s.active_count -
         (s.buckets.getD (hash_data data % s.num_buckets) []).countP
           (orsetRemoveMatches (hash_data data) data) })

/-- cauchy_orset_contains: any visible entry for the payload. -/
def cauchy_orset_contains (s : ORSet) (data : List Nat) : Bool :=
  if data.isEmpty then false
  else (s.buckets.getD (hash_data data % s.num_buckets) []).any
    (fun e => !e.removed && e.hash == hash_data data && e.data == data)

def cauchy_orset_count (s : ORSet) : Nat := s.active_count

/-- The (hash, tag) match of find_entry_by_tag in src/crdt/or_set.c. -/
def orsetTagMatches (h : Nat) (tag : CauchyUID) (e : ORSetEntry) : Bool :=
  e.hash == h && cauchy_uid_equals e.tag tag

def find_entry_by_tag (s : ORSet) (h : Nat) (tag : CauchyUID) : Option ORSetEntry :=
  (s.buckets.getD (h % s.num_buckets) []).find? (orsetTagMatches h tag)

/-- Tombstone the first (hash, tag) match of a chain: the entry
find_entry_by_tag returns is the one the merge marks removed. -/
def markFirstRemoved : List ORSetEntry → Nat → CauchyUID → List ORSetEntry
  | [], _, _ => []
  | e :: rest, h, tag =>
    if orsetTagMatches h tag e then { e with removed := true } :: rest
    else e :: markFirstRemoved rest h tag

/-- One iteration of the cauchy_orset_merge loop for a single source
entry: a known (hash, tag) is tombstoned if the source copy is removed
and the destination copy is not (never un-removed); an unknown tag is
cloned in at the head of its destination bucket. -/
def orset_merge_entry (dst : ORSet) (se : ORSetEntry) : ORSet :=
  match find_entry_by_tag dst se.hash se.tag with
  | some existing =>
    if se.removed && !existing.removed then
      { dst with
        buckets := dst.buckets.set (se.hash % dst.num_buckets)
          (markFirstRemoved (dst.buckets.getD (se.hash % dst.num_buckets) [])
            se.hash se.tag)
        active_count := dst.active_count - 1 }
    else dst
  | none =>
    { dst with
      buckets := dst.buckets.set (se.hash % dst.num_buckets)
        (se :: dst.buckets.getD (se.hash % dst.num_buckets) [])
      entry_count := dst.entry_count + 1
      active_count := if !se.removed then dst.active_count + 1 else dst.active_count }

/-- cauchy_orset_merge: process every source entry in bucket order
(allocation cannot fail in the model, so the result is always OK). -/
def cauchy_orset_merge (dst src : ORSet) : CauchyResult × ORSet :=
  (CauchyResult.OK, (src.buckets.flatten).foldl orset_merge_entry dst)

/-- An OR-Set mutation, for stating the invariant over operation
sequences. -/
inductive ORSetOp where
  | add (data : List Nat)
  | remove (data : List Nat)
  | mergeFrom (src : ORSet)

def orset_apply (s : ORSet) (op : ORSetOp) : ORSet :=
  match op with
  | ORSetOp.add d => (cauchy_orset_add s d).2
  | ORSetOp.remove d => (cauchy_orset_remove s d).2
  | ORSetOp.mergeFrom src => (cauchy_orset_merge s src).2

def orset_run (s : ORSet) (ops : List ORSetOp) : ORSet :=
  ops.foldl orset_apply s

/-- Number of non-removed entries across all buckets. -/
def orsetActiveEntryCount (s : ORSet) : Nat :=
  (s.buckets.flatten).countP (fun e => !e.removed)

/-- Number of distinct payload keys (by byte content) with at least one
non-removed entry. -/
def orsetDistinctActiveKeys (s : ORSet) : Nat :=
  (((s.buckets.flatten).filter (fun e => !e.removed)).map (fun e => e.data)).dedup.length

/-- The tags of the non-removed entries holding the given payload. -/
def orsetActiveTagsFor (s : ORSet) (data : List Nat) : List CauchyUID :=
  ((s.buckets.flatten).filter (fun e => !e.removed && e.data == data)).map
    (fun e => e.tag)

/-- Structural invariant carried through the OR-Set proofs: the bucket
array has num_buckets chains, num_buckets is positive (true from init),
and active_count counts the non-removed entries. -/
def ORSetInv (s : ORSet) : Prop :=
  s.buckets.length = s.num_buckets ∧ 0 < s.num_buckets ∧
    s.active_count = orsetActiveEntryCount s

/-- The byte payload of the C string "k" (strlen + 1 bytes). -/
def kBytes : List Nat := [107, 0]

/-- Replica R1: node 1 adds "k", minting tag T0 = (1, 1). -/
def orsetR1 : ORSet := (cauchy_orset_add (cauchy_orset_init 16 1) kBytes).2

/-- Replica R2: node 2 obtains "k" under T0 by merging from R1. -/
def orsetR2 : ORSet := (cauchy_orset_merge (cauchy_orset_init 16 2) orsetR1).2

/-- R1 after remove("k"): T0 tombstoned. -/
def orsetR1r : ORSet := (cauchy_orset_remove orsetR1 kBytes).2

/-- R2 after add("k"): fresh tag T2 = (2, 1). -/
def orsetR2a : ORSet := (cauchy_orset_add orsetR2 kBytes).2

-- Helper lemmas about the flag-accumulating fold.

theorem foldl_or_pair (l : List Nat) (f g : Nat → Bool) (x y : Bool) :
    l.foldl (fun (p : Bool × Bool) i => (p.1 || f i, p.2 || g i)) (x, y)
      = (x || l.any f, y || l.any g) := by
  induction l generalizing x y with
  | nil => simp
  | cons a t ih => simp [List.foldl_cons, ih, List.any_cons, Bool.or_assoc]

theorem vclockEntryAt_of_le (vc : VClock) (i : Nat) (h : vc.num_nodes ≤ i) :
    vclockEntryAt vc i = 0 := by
  simp [vclockEntryAt, Nat.not_lt.mpr h]

theorem vclock_compare_flags (a b : VClock) :
    cauchy_vclock_compare a b =
      (if !((List.range (if a.num_nodes > b.num_nodes then a.num_nodes else b.num_nodes)).any
              fun i => decide (vclockEntryAt a i < vclockEntryAt b i)) &&
          !((List.range (if a.num_nodes > b.num_nodes then a.num_nodes else b.num_nodes)).any
              fun i => decide (vclockEntryAt a i > vclockEntryAt b i))
       then CauchyCausality.EQUAL
       else if ((List.range (if a.num_nodes > b.num_nodes then a.num_nodes else b.num_nodes)).any
              fun i => decide (vclockEntryAt a i < vclockEntryAt b i)) &&
          !((List.range (if a.num_nodes > b.num_nodes then a.num_nodes else b.num_nodes)).any
              fun i => decide (vclockEntryAt a i > vclockEntryAt b i))
       then CauchyCausality.HAPPENS_BEFORE
       else if !((List.range (if a.num_nodes > b.num_nodes then a.num_nodes else b.num_nodes)).any
              fun i => decide (vclockEntryAt a i < vclockEntryAt b i)) &&
          ((List.range (if a.num_nodes > b.num_nodes then a.num_nodes else b.num_nodes)).any
              fun i => decide (vclockEntryAt a i > vclockEntryAt b i))
       then CauchyCausality.HAPPENS_AFTER
       else CauchyCausality.CONCURRENT) := by
  simp only [cauchy_vclock_compare]
  rw [foldl_or_pair]
  simp only [Bool.false_or]

theorem vclock_less_flag_iff (a b : VClock) :
    ((List.range (if a.num_nodes > b.num_nodes then a.num_nodes else b.num_nodes)).any
        fun i => decide (vclockEntryAt a i < vclockEntryAt b i)) = true ↔
      ∃ i, vclockEntryAt a i < vclockEntryAt b i := by
  rw [List.any_eq_true]
  constructor
  · rintro ⟨i, _, hi⟩
    exact ⟨i, by simpa using hi⟩
  · rintro ⟨i, hi⟩
    refine ⟨i, ?_, by simpa using hi⟩
    rw [List.mem_range]
    by_contra hge
    rw [Nat.not_lt] at hge
    have h1 : vclockEntryAt a i = 0 := by
      apply vclockEntryAt_of_le
      by_cases h : a.num_nodes > b.num_nodes <;> simp [h] at hge <;> omega
    have h2 : vclockEntryAt b i = 0 := by
      apply vclockEntryAt_of_le
      by_cases h : a.num_nodes > b.num_nodes <;> simp [h] at hge <;> omega
    omega

theorem vclock_greater_flag_iff (a b : VClock) :
    ((List.range (if a.num_nodes > b.num_nodes then a.num_nodes else b.num_nodes)).any
        fun i => decide (vclockEntryAt a i > vclockEntryAt b i)) = true ↔
      ∃ i, vclockEntryAt b i < vclockEntryAt a i := by
  rw [List.any_eq_true]
  constructor
  · rintro ⟨i, _, hi⟩
    exact ⟨i, by simpa using hi⟩
  · rintro ⟨i, hi⟩
    refine ⟨i, ?_, by simpa using hi⟩
    rw [List.mem_range]
    by_contra hge
    rw [Nat.not_lt] at hge
    have h1 : vclockEntryAt a i = 0 := by
      apply vclockEntryAt_of_le
      by_cases h : a.num_nodes > b.num_nodes <;> simp [h] at hge <;> omega
    have h2 : vclockEntryAt b i = 0 := by
      apply vclockEntryAt_of_le
      by_cases h : a.num_nodes > b.num_nodes <;> simp [h] at hge <;> omega
    omega

/-- Claim C3: cauchy_vclock_compare returns EQUAL iff all (zero-extended)
entries agree, HAPPENS_BEFORE iff every entry of a is at most the
corresponding entry of b with at least one strictly less, HAPPENS_AFTER
symmetrically, and CONCURRENT otherwise (a strict witness each way); and
on A=(3,2,0), B=(3,2,1), B'=(3,3,0), C=(4,1,0) it returns before, before
and concurrent respectively. -/
theorem c3_vclock_compare_characterization (a b : VClock) :
    (cauchy_vclock_compare a b = CauchyCausality.EQUAL ↔
      ∀ i, vclockEntryAt a i = vclockEntryAt b i) ∧
    (cauchy_vclock_compare a b = CauchyCausality.HAPPENS_BEFORE ↔
      (∀ i, vclockEntryAt a i ≤ vclockEntryAt b i) ∧
        ∃ i, vclockEntryAt a i < vclockEntryAt b i) ∧
    (cauchy_vclock_compare a b = CauchyCausality.HAPPENS_AFTER ↔
      (∀ i, vclockEntryAt b i ≤ vclockEntryAt a i) ∧
        ∃ i, vclockEntryAt b i < vclockEntryAt a i) ∧
    (cauchy_vclock_compare a b = CauchyCausality.CONCURRENT ↔
      (∃ i, vclockEntryAt a i < vclockEntryAt b i) ∧
        ∃ i, vclockEntryAt b i < vclockEntryAt a i) ∧
    cauchy_vclock_compare ⟨[3, 2, 0], 3⟩ ⟨[3, 2, 1], 3⟩ = CauchyCausality.HAPPENS_BEFORE ∧
    cauchy_vclock_compare ⟨[3, 2, 0], 3⟩ ⟨[3, 3, 0], 3⟩ = CauchyCausality.HAPPENS_BEFORE ∧
    cauchy_vclock_compare ⟨[3, 2, 0], 3⟩ ⟨[4, 1, 0], 3⟩ = CauchyCausality.CONCURRENT := by
  have hL := vclock_less_flag_iff a b
  have hL := vclock_less_flag_iff a b
  have hG := vclock_greater_flag_iff a b
  rw [vclock_compare_flags a b]
  cases hLb : (List.range (if a.num_nodes > b.num_nodes then a.num_nodes else b.num_nodes)).any
      fun i => decide (vclockEntryAt a i < vclockEntryAt b i) with
  | false =>
    have hLn : ¬ ∃ i, vclockEntryAt a i < vclockEntryAt b i :=
      fun h => Bool.false_ne_true (hLb ▸ hL.mpr h)
    have hbla : ∀ i, vclockEntryAt b i ≤ vclockEntryAt a i :=
      fun i => Nat.not_lt.mp (fun hlt => hLn ⟨i, hlt⟩)
    cases hGb : (List.range (if a.num_nodes > b.num_nodes then a.num_nodes else b.num_nodes)).any
        fun i => decide (vclockEntryAt a i > vclockEntryAt b i) with
    | false =>
      have hGn : ¬ ∃ i, vclockEntryAt b i < vclockEntryAt a i :=
        fun h => Bool.false_ne_true (hGb ▸ hG.mpr h)
      have halb : ∀ i, vclockEntryAt a i ≤ vclockEntryAt b i :=
        fun i => Nat.not_lt.mp (fun hlt => hGn ⟨i, hlt⟩)
      exact ⟨iff_of_true rfl (fun i => Nat.le_antisymm (halb i) (hbla i)),
             iff_of_false (by decide) (fun h => hLn h.2),
             iff_of_false (by decide) (fun h => hGn h.2),
             iff_of_false (by decide) (fun h => hLn h.1),
             by decide, by decide, by decide⟩
    | true =>
      have hGe : ∃ i, vclockEntryAt b i < vclockEntryAt a i := hG.mp hGb
      exact ⟨iff_of_false (by decide)
               (fun h => by obtain ⟨i, hi⟩ := hGe; have := h i; omega),
             iff_of_false (by decide) (fun h => hLn h.2),
             iff_of_true rfl ⟨hbla, hGe⟩,
             iff_of_false (by decide) (fun h => hLn h.1),
             by decide, by decide, by decide⟩
  | true =>
    have hLe : ∃ i, vclockEntryAt a i < vclockEntryAt b i := hL.mp hLb
    cases hGb : (List.range (if a.num_nodes > b.num_nodes then a.num_nodes else b.num_nodes)).any
        fun i => decide (vclockEntryAt a i > vclockEntryAt b i) with
    | false =>
      have hGn : ¬ ∃ i, vclockEntryAt b i < vclockEntryAt a i :=
        fun h => Bool.false_ne_true (hGb ▸ hG.mpr h)
      have halb : ∀ i, vclockEntryAt a i ≤ vclockEntryAt b i :=
        fun i => Nat.not_lt.mp (fun hlt => hGn ⟨i, hlt⟩)
      exact ⟨iff_of_false (by decide)
               (fun h => by obtain ⟨i, hi⟩ := hLe; have := h i; omega),
             iff_of_true rfl ⟨halb, hLe⟩,
             iff_of_false (by decide) (fun h => hGn h.2),
             iff_of_false (by decide) (fun h => hGn h.2),
             by decide, by decide, by decide⟩
    | true =>
      have hGe : ∃ i, vclockEntryAt b i < vclockEntryAt a i := hG.mp hGb
      exact ⟨iff_of_false (by decide)
               (fun h => by obtain ⟨i, hi⟩ := hLe; have := h i; omega),
             iff_of_false (by decide)
               (fun h => by obtain ⟨i, hi⟩ := hGe; have := h.1 i; omega),
             iff_of_false (by decide)
               (fun h => by obtain ⟨i, hi⟩ := hLe; have := h.1 i; omega),
             iff_of_true rfl ⟨hLe, hGe⟩,
             by decide, by decide, by decide⟩

-- List getD / set helpers.

theorem getD_set_self (l : List Nat) (i v : Nat) (h : i < l.length) :
    (l.set i v).getD i 0 = v := by
  induction l generalizing i with
  | nil => simp at h
  | cons a t ih =>
    cases i with
    | zero => simp
    | succ i => simpa using ih i (by simpa using h)

theorem getD_set_ne (l : List Nat) (i j v : Nat) (h : i ≠ j) :
    (l.set i v).getD j 0 = l.getD j 0 := by
  induction l generalizing i j with
  | nil => simp
  | cons a t ih =>
    cases i with
    | zero =>
      cases j with
      | zero => exact absurd rfl h
      | succ j => simp
    | succ i =>
      cases j with
      | zero => simp
      | succ j => simpa using ih i j (fun he => h (by rw [he]))

theorem getD_replicate_zero (k i : Nat) : (List.replicate k (0 : Nat)).getD i 0 = 0 := by
  induction k generalizing i with
  | zero => rfl
  | succ k ih =>
    cases i with
    | zero => rfl
    | succ i => simp [List.replicate_succ, ih i]

theorem getD_append_replicate_zero (l : List Nat) (k i : Nat) (h : l.length ≤ i) :
    (l ++ List.replicate k 0).getD i 0 = 0 := by
  induction l generalizing i with
  | nil => simp [getD_replicate_zero k i]
  | cons a t ih =>
    cases i with
    | zero => simp at h
    | succ i => simpa using ih i (by simpa using h)

-- Characterization of the G-Counter merge loop.

theorem gcounter_merge_loop_length (src : GCounter) (n : Nat) (cs : List Nat) :
    ((List.range n).foldl
      (fun cs i =>
        if i < src.num_nodes ∧ src.counts.getD i 0 > cs.getD i 0
        then cs.set i (src.counts.getD i 0) else cs)
      cs).length = cs.length := by
  induction n with
  | zero => rfl
  | succ n ih =>
    rw [List.range_succ, List.foldl_append, List.foldl_cons, List.foldl_nil]
    split
    · rw [List.length_set]; exact ih
    · exact ih

theorem gcounter_merge_loop_getD_ge (src : GCounter) (cs : List Nat) (j : Nat) :
    ∀ n, n ≤ j →
      ((List.range n).foldl
        (fun cs i =>
          if i < src.num_nodes ∧ src.counts.getD i 0 > cs.getD i 0
          then cs.set i (src.counts.getD i 0) else cs)
        cs).getD j 0 = cs.getD j 0 := by
  intro n
  induction n with
  | zero => intro _; rfl
  | succ n ih =>
    intro hj
    rw [List.range_succ, List.foldl_append, List.foldl_cons, List.foldl_nil]
    split
    · rw [getD_set_ne _ _ _ _ (by omega)]; exact ih (by omega)
    · exact ih (by omega)

theorem gcounter_merge_loop_getD_lt (src : GCounter) (cs : List Nat) (j : Nat) :
    ∀ n, j < n → n ≤ cs.length →
      ((List.range n).foldl
        (fun cs i =>
          if i < src.num_nodes ∧ src.counts.getD i 0 > cs.getD i 0
          then cs.set i (src.counts.getD i 0) else cs)
        cs).getD j 0 =
        (if j < src.num_nodes ∧ src.counts.getD j 0 > cs.getD j 0
         then src.counts.getD j 0 else cs.getD j 0) := by
  intro n
  induction n with
  | zero => intro h _; omega
  | succ n ih =>
    intro hj hlen
    rw [List.range_succ, List.foldl_append, List.foldl_cons, List.foldl_nil]
    by_cases hjn : j = n
    · subst hjn
      have hM := gcounter_merge_loop_getD_ge src cs j j (Nat.le_refl j)
      have hMlen := gcounter_merge_loop_length src j cs
      split
      · rename_i hcond
        rw [hM] at hcond
        rw [getD_set_self _ _ _ (by omega), if_pos hcond]
      · rename_i hcond
        rw [hM] at hcond
        rw [hM, if_neg hcond]
    · have hjn2 : j < n := by omega
      split
      · rw [getD_set_ne _ _ _ _ (fun he => hjn he.symm)]
        exact ih hjn2 (by omega)
      · exact ih hjn2 (by omega)

theorem gcounter_merge_getD (dst src : GCounter)
    (hlen : dst.counts.length = CAUCHY_MAX_NODES)
    (hd : dst.num_nodes ≤ CAUCHY_MAX_NODES) (hs : src.num_nodes ≤ CAUCHY_MAX_NODES)
    (j : Nat) :
    (cauchy_gcounter_merge dst src).counts.getD j 0 =
      (if j < src.num_nodes ∧ src.counts.getD j 0 > dst.counts.getD j 0
       then src.counts.getD j 0 else dst.counts.getD j 0) := by
  by_cases hjm : j < (if dst.num_nodes > src.num_nodes then dst.num_nodes else src.num_nodes)
  · exact gcounter_merge_loop_getD_lt src dst.counts j _ hjm
      (by split <;> omega)
  · have h1 : (cauchy_gcounter_merge dst src).counts.getD j 0 = dst.counts.getD j 0 :=
      gcounter_merge_loop_getD_ge src dst.counts j _ (by omega)
    rw [h1, if_neg]
    rintro ⟨hjs, -⟩
    revert hjm
    simp only [not_lt]
    split <;> omega

/-- Claim C2: for G-Counter states whose counts are zero at and beyond
num_nodes, merging either way round gives states equal under
cauchy_gcounter_equals, with num_nodes the max of the two and counts the
element-wise maximum. -/
theorem c2_gcounter_merge_commutative (a b : GCounter)
    (hal : a.counts.length = CAUCHY_MAX_NODES) (hbl : b.counts.length = CAUCHY_MAX_NODES)
    (han : a.num_nodes ≤ CAUCHY_MAX_NODES) (hbn : b.num_nodes ≤ CAUCHY_MAX_NODES)
    (hza : ∀ i, a.num_nodes ≤ i → a.counts.getD i 0 = 0)
    (hzb : ∀ i, b.num_nodes ≤ i → b.counts.getD i 0 = 0) :
    cauchy_gcounter_equals (cauchy_gcounter_merge a b) (cauchy_gcounter_merge b a) = true ∧
    (cauchy_gcounter_merge a b).num_nodes = max a.num_nodes b.num_nodes ∧
    ∀ i, (cauchy_gcounter_merge a b).counts.getD i 0
      = max (a.counts.getD i 0) (b.counts.getD i 0) := by
  have hab : ∀ i, (cauchy_gcounter_merge a b).counts.getD i 0
      = max (a.counts.getD i 0) (b.counts.getD i 0) := by
    intro i
    rw [gcounter_merge_getD a b hal han hbn i]
    rcases Nat.lt_or_ge i b.num_nodes with hi | hi
    · split
      · rename_i h; omega
      · rename_i h
        have hnb : ¬ b.counts.getD i 0 > a.counts.getD i 0 := fun hgt => h ⟨hi, hgt⟩
        omega
    · have h0 : b.counts.getD i 0 = 0 := hzb i hi
      split
      · rename_i h; omega
      · omega
  have hba : ∀ i, (cauchy_gcounter_merge b a).counts.getD i 0
      = max (a.counts.getD i 0) (b.counts.getD i 0) := by
    intro i
    rw [gcounter_merge_getD b a hbl hbn han i]
    rcases Nat.lt_or_ge i a.num_nodes with hi | hi
    · split
      · rename_i h; omega
      · rename_i h
        have hna : ¬ a.counts.getD i 0 > b.counts.getD i 0 := fun hgt => h ⟨hi, hgt⟩
        omega
    · have h0 : a.counts.getD i 0 = 0 := hza i hi
      split
      · rename_i h; omega
      · omega
  have hn1 : (cauchy_gcounter_merge a b).num_nodes = max a.num_nodes b.num_nodes := by
    simp only [cauchy_gcounter_merge]
    split <;> omega
  have hn2 : (cauchy_gcounter_merge b a).num_nodes = max a.num_nodes b.num_nodes := by
    simp only [cauchy_gcounter_merge]
    split <;> omega
  refine ⟨?_, hn1, hab⟩
  simp only [cauchy_gcounter_equals]
  rw [if_neg (by rw [hn1, hn2]; omega)]
  rw [List.all_eq_true]
  intro i _
  simp only [beq_iff_eq]
  rw [hab i, hba i]

/-- Witness for Claim C2 at two concrete counters. -/
theorem c2_gcounter_merge_commutative_witness :
    cauchy_gcounter_equals (cauchy_gcounter_merge gcWitnessA gcWitnessB)
      (cauchy_gcounter_merge gcWitnessB gcWitnessA) = true ∧
    (cauchy_gcounter_merge gcWitnessA gcWitnessB).num_nodes
      = max gcWitnessA.num_nodes gcWitnessB.num_nodes ∧
    ∀ i, (cauchy_gcounter_merge gcWitnessA gcWitnessB).counts.getD i 0
      = max (gcWitnessA.counts.getD i 0) (gcWitnessB.counts.getD i 0) :=
  c2_gcounter_merge_commutative gcWitnessA gcWitnessB
    (by decide) (by decide) (by decide) (by decide)
    (fun i hi => getD_append_replicate_zero [5, 1] 62 i (by simpa using hi))
    (fun i hi => getD_append_replicate_zero [2, 7, 4] 61 i (by simpa using hi))

-- LWW-Register claims.

/-- Claim C4: cauchy_lww_set and cauchy_lww_merge replace the stored
(value, value_size, timestamp, node_id) exactly when the incoming
(timestamp, node_id) is lexicographically greater than the current pair
(ties on timestamp broken by the higher node_id), and silently drop an
incoming pair that is less than or equal; and the set(v1,5,2),
set(v2,5,1), set(v3,5,3) scenario leaves v1 then stores v3. -/
theorem c4_lww_accept_rule (reg src : LWWRegister) (v : List Nat) (n ts node : Nat)
    (hn : n ≤ CAUCHY_LWW_MAX_VALUE_SIZE) (hvlen : n ≤ v.length) :
    ((cauchy_lww_set reg (some v) n ts node).1 = CauchyResult.OK ∧
     (if ts > reg.timestamp ∨ (ts = reg.timestamp ∧ node > reg.node_id)
      then (cauchy_lww_set reg (some v) n ts node).2.timestamp = ts ∧
           (cauchy_lww_set reg (some v) n ts node).2.node_id = node ∧
           (cauchy_lww_set reg (some v) n ts node).2.value_size = n ∧
           (cauchy_lww_set reg (some v) n ts node).2.value.take n = v.take n
      else (cauchy_lww_set reg (some v) n ts node).2 = reg)) ∧
    (if src.timestamp > reg.timestamp ∨
        (src.timestamp = reg.timestamp ∧ src.node_id > reg.node_id)
     then cauchy_lww_merge reg src = src
     else cauchy_lww_merge reg src = reg) ∧
    ((cauchy_lww_set (cauchy_lww_set cauchy_lww_init (some [10]) 1 5 2).2
        (some [20]) 1 5 1).2.value.take 1 = [10] ∧
     (cauchy_lww_set (cauchy_lww_set cauchy_lww_init (some [10]) 1 5 2).2
        (some [20]) 1 5 1).2.node_id = 2 ∧
     (cauchy_lww_set (cauchy_lww_set (cauchy_lww_set cauchy_lww_init (some [10]) 1 5 2).2
        (some [20]) 1 5 1).2 (some [30]) 1 5 3).2.value.take 1 = [30] ∧
     (cauchy_lww_set (cauchy_lww_set (cauchy_lww_set cauchy_lww_init (some [10]) 1 5 2).2
        (some [20]) 1 5 1).2 (some [30]) 1 5 3).2.node_id = 3) := by
  refine ⟨⟨?_, ?_⟩, ?_, by decide, by decide, by decide, by decide⟩
  · simp only [cauchy_lww_set]
    rw [if_neg (show ¬ n > CAUCHY_LWW_MAX_VALUE_SIZE from by omega)]
    split <;> rfl
  · split
    · rename_i hacc
      simp only [cauchy_lww_set]
      rw [if_neg (show ¬ n > CAUCHY_LWW_MAX_VALUE_SIZE from by omega), if_pos hacc]
      refine ⟨rfl, rfl, rfl, ?_⟩
      cases hn0 : n with
      | zero => simp
      | succ m =>
        rw [← hn0]
        simp only [if_pos (show n > 0 from by omega), copyIntoBuffer]
        have hlen : (v.take n).length = n := by
          rw [List.length_take]; omega
        exact List.take_left' hlen
    · rename_i hacc
      simp only [cauchy_lww_set]
      rw [if_neg (show ¬ n > CAUCHY_LWW_MAX_VALUE_SIZE from by omega), if_neg hacc]
  · simp only [cauchy_lww_merge]
    split
    · rfl
    · rfl

/-- Witness for Claim C4 at a concrete register and write. -/
theorem c4_lww_accept_rule_witness :
    (cauchy_lww_set lwwWitnessReg (some [7, 8]) 2 6 1).1 = CauchyResult.OK ∧
    (cauchy_lww_set lwwWitnessReg (some [7, 8]) 2 6 1).2.value.take 2 = [7, 8] :=
  have h := c4_lww_accept_rule lwwWitnessReg cauchy_lww_init [7, 8] 2 6 1
    (by decide) (by decide)
  ⟨h.1.1, by
    have h2 := h.1.2
    rw [if_pos (by decide)] at h2
    exact h2.2.2.2⟩

/-- Claim C9: cauchy_lww_set with value_size above
CAUCHY_LWW_MAX_VALUE_SIZE returns ERR_FULL and leaves the register
unchanged; with value_size at most the ceiling it never returns ERR_FULL. -/
theorem c9_lww_size_ceiling (reg : LWWRegister) (value : Option (List Nat))
    (n ts node : Nat) :
    (n > CAUCHY_LWW_MAX_VALUE_SIZE →
      cauchy_lww_set reg value n ts node = (CauchyResult.ERR_FULL, reg)) ∧
    (n ≤ CAUCHY_LWW_MAX_VALUE_SIZE →
      (cauchy_lww_set reg value n ts node).1 ≠ CauchyResult.ERR_FULL) := by
  constructor
  · intro h
    simp only [cauchy_lww_set]
    rw [if_pos h]
  · intro h
    simp only [cauchy_lww_set]
    rw [if_neg (by omega)]
    split <;> simp

/-- Witness for Claim C9: an oversized and an in-range write. -/
theorem c9_lww_size_ceiling_witness :
    cauchy_lww_set cauchy_lww_init (some [1]) 300 1 1
      = (CauchyResult.ERR_FULL, cauchy_lww_init) ∧
    (cauchy_lww_set cauchy_lww_init (some [1]) 1 1 1).1 ≠ CauchyResult.ERR_FULL :=
  ⟨(c9_lww_size_ceiling cauchy_lww_init (some [1]) 300 1 1).1 (by decide),
   (c9_lww_size_ceiling cauchy_lww_init (some [1]) 1 1 1).2 (by decide)⟩

/-- Claim C10: a dropped LWW write (value_size within the ceiling,
incoming (timestamp, node_id) lexicographically at most the current pair)
returns CAUCHY_OK and leaves the register unchanged. -/
theorem c10_lww_dropped_write_ok (reg : LWWRegister) (value : Option (List Nat))
    (n ts node : Nat) (hn : n ≤ CAUCHY_LWW_MAX_VALUE_SIZE)
    (hle : ts < reg.timestamp ∨ (ts = reg.timestamp ∧ node ≤ reg.node_id)) :
    cauchy_lww_set reg value n ts node = (CauchyResult.OK, reg) := by
  simp only [cauchy_lww_set]
  rw [if_neg (by omega), if_neg (by omega)]

/-- Witness for Claim C10: a tie on timestamp with a lower node id is
dropped with CAUCHY_OK. -/
theorem c10_lww_dropped_write_ok_witness :
    cauchy_lww_set lwwWitnessReg (some [8]) 1 5 1 = (CauchyResult.OK, lwwWitnessReg) :=
  c10_lww_dropped_write_ok lwwWitnessReg (some [8]) 1 5 1 (by decide) (by decide)

-- Node-context UID generation (Claim C8).

theorem gen_uid_step (ctx : CauchyContext)
    (hn : ctx.node_id < ctx.local_clock.num_nodes)
    (hlen : ctx.local_clock.num_nodes ≤ ctx.local_clock.entries.length) :
    (cauchy_context_gen_uid ctx).1 =
      cauchy_uid_create ctx.node_id
        ((ctx.local_clock.entries.getD ctx.node_id 0 + 1) % U64_MOD) ∧
    (cauchy_context_gen_uid ctx).2.node_id = ctx.node_id ∧
    (cauchy_context_gen_uid ctx).2.local_clock.num_nodes = ctx.local_clock.num_nodes ∧
    (cauchy_context_gen_uid ctx).2.local_clock.entries
      = ctx.local_clock.entries.set ctx.node_id
          ((ctx.local_clock.entries.getD ctx.node_id 0 + 1) % U64_MOD) := by
  have hge : ¬ ctx.node_id ≥ ctx.local_clock.num_nodes := by omega
  refine ⟨?_, rfl, ?_, ?_⟩
  · simp only [cauchy_context_gen_uid, cauchy_vclock_increment, cauchy_vclock_get, if_neg hge]
    rw [getD_set_self _ _ _ (by omega)]
  · simp only [cauchy_context_gen_uid, cauchy_vclock_increment, if_neg hge]
  · simp only [cauchy_context_gen_uid, cauchy_vclock_increment, if_neg hge]

/-- Counterexample to Claim C8 as stated: a context whose node_id (64) is
out of range of its own clock returns the same UID from two consecutive
cauchy_context_gen_uid calls: the comparison is 0, not strictly
increasing. -/
theorem c8_uid_monotonic_counterexample :
    cauchy_uid_compare
      (cauchy_context_gen_uid (cauchy_context_create 64)).1
      (cauchy_context_gen_uid (cauchy_context_gen_uid (cauchy_context_create 64)).2).1 = 0 ∧
    ¬ (cauchy_context_gen_uid (cauchy_context_create 64)).1.timestamp <
        (cauchy_context_gen_uid (cauchy_context_gen_uid (cauchy_context_create 64)).2).1.timestamp := by
  decide

/-- Claim C8 (amended): for a context whose node_id is a valid index of
its local clock (in particular node_id < MAX_NODES for a context from
cauchy_context_create) and whose own clock entry is at least 2 below the
u64 wrap, two consecutive cauchy_context_gen_uid calls return strictly
increasing UIDs: the comparison is -1 and the timestamp increases by 1. -/
theorem c8_uid_monotonic (ctx : CauchyContext)
    (hn : ctx.node_id < ctx.local_clock.num_nodes)
    (hlen : ctx.local_clock.num_nodes ≤ ctx.local_clock.entries.length)
    (hts : cauchy_vclock_get ctx.local_clock ctx.node_id + 2 < U64_MOD) :
    cauchy_uid_compare (cauchy_context_gen_uid ctx).1
      (cauchy_context_gen_uid (cauchy_context_gen_uid ctx).2).1 = -1 ∧
    (cauchy_context_gen_uid (cauchy_context_gen_uid ctx).2).1.timestamp
      = (cauchy_context_gen_uid ctx).1.timestamp + 1 := by
  rw [cauchy_vclock_get, if_neg (show ¬ ctx.node_id ≥ ctx.local_clock.num_nodes from by omega)]
    at hts
  obtain ⟨hu1, hnode1, hnum1, hent1⟩ := gen_uid_step ctx hn hlen
  have hmod1 : (ctx.local_clock.entries.getD ctx.node_id 0 + 1) % U64_MOD
      = ctx.local_clock.entries.getD ctx.node_id 0 + 1 := Nat.mod_eq_of_lt (by omega)
  have hn2 : (cauchy_context_gen_uid ctx).2.node_id
      < (cauchy_context_gen_uid ctx).2.local_clock.num_nodes := by
    rw [hnode1, hnum1]; exact hn
  have hlen2 : (cauchy_context_gen_uid ctx).2.local_clock.num_nodes
      ≤ (cauchy_context_gen_uid ctx).2.local_clock.entries.length := by
    rw [hnum1, hent1, List.length_set]; exact hlen
  obtain ⟨hu2, -, -, -⟩ := gen_uid_step (cauchy_context_gen_uid ctx).2 hn2 hlen2
  have hget2 : (cauchy_context_gen_uid ctx).2.local_clock.entries.getD ctx.node_id 0
      = ctx.local_clock.entries.getD ctx.node_id 0 + 1 := by
    rw [hent1, getD_set_self _ _ _ (by omega), hmod1]
  rw [hu1, hu2, hnode1, hget2, hmod1]
  have hmod2 : (ctx.local_clock.entries.getD ctx.node_id 0 + 1 + 1) % U64_MOD
      = ctx.local_clock.entries.getD ctx.node_id 0 + 1 + 1 := Nat.mod_eq_of_lt (by omega)
  rw [hmod2]
  constructor
  · rw [cauchy_uid_compare]
    simp only [cauchy_uid_create]
    rw [if_pos (by omega)]
    rw [if_pos (by omega)]
  · rfl

/-- Witness for the amended Claim C8 at a freshly created context with a
valid node id. -/
theorem c8_uid_monotonic_witness :
    cauchy_uid_compare (cauchy_context_gen_uid (cauchy_context_create 3)).1
      (cauchy_context_gen_uid (cauchy_context_gen_uid (cauchy_context_create 3)).2).1 = -1 ∧
    (cauchy_context_gen_uid (cauchy_context_gen_uid (cauchy_context_create 3)).2).1.timestamp
      = (cauchy_context_gen_uid (cauchy_context_create 3)).1.timestamp + 1 :=
  c8_uid_monotonic (cauchy_context_create 3) (by decide) (by decide) (by decide)

-- Wire-format round trips (Claim C5).

theorem u64_mod_as_bytes : U64_MOD = 256 ^ 8 := by norm_num [U64_MOD]

theorem natToBytes_length (n x : Nat) : (natToBytes n x).length = n := by
  induction n generalizing x with
  | zero => rfl
  | succ n ih => simp [natToBytes, ih]

theorem bytesToNat_natToBytes (n x : Nat) : bytesToNat (natToBytes n x) = x % 256 ^ n := by
  induction n generalizing x with
  | zero => simp [natToBytes, bytesToNat, Nat.mod_one]
  | succ n ih =>
    simp only [natToBytes, bytesToNat, ih]
    rw [pow_succ', Nat.mod_mul]

theorem bytesToNat_natToBytes_of_lt (n x : Nat) (h : x < 256 ^ n) :
    bytesToNat (natToBytes n x) = x := by
  rw [bytesToNat_natToBytes, Nat.mod_eq_of_lt h]

theorem chunks_flatten_length (l : List Nat) :
    ((l.map (natToBytes 8)).flatten).length = 8 * l.length := by
  induction l with
  | nil => rfl
  | cons a t ih =>
    simp only [List.map_cons, List.flatten_cons, List.length_append, natToBytes_length, ih,
      List.length_cons]
    ring

theorem chunks_flatten_drop_take (l : List Nat) :
    ∀ i, i < l.length →
      (((l.map (natToBytes 8)).flatten).drop (8 * i)).take 8 = natToBytes 8 (l.getD i 0) := by
  induction l with
  | nil => intro i hi; simp at hi
  | cons a t ih =>
    intro i hi
    cases i with
    | zero =>
      simp only [List.map_cons, List.flatten_cons, Nat.mul_zero, List.drop_zero,
        List.getD_cons_zero]
      exact List.take_left' (natToBytes_length 8 a)
    | succ i =>
      simp only [List.map_cons, List.flatten_cons, List.getD_cons_succ]
      rw [show 8 * (i + 1) = (natToBytes 8 a).length + 8 * i from by
        rw [natToBytes_length]; ring]
      rw [List.drop_append]
      exact ih i (by simpa using hi)

theorem getD_map_range (f : Nat → Nat) (n i : Nat) (hi : i < n) :
    ((List.range n).map f).getD i 0 = f i := by
  rw [List.getD_eq_getElem?_getD, List.getElem?_map, List.getElem?_range hi]
  rfl

theorem vclock_deserialize_of_wire (vc0 : VClock) (n : Nat) (f : Nat → Nat)
    (hn : n ≤ CAUCHY_MAX_NODES) (hf : ∀ i < n, f i < U64_MOD) :
    cauchy_vclock_deserialize vc0
        (natToBytes 4 n ++ (((List.range n).map f).map (natToBytes 8)).flatten)
      = (CauchyResult.OK,
         { entries := (List.range n).map f ++ List.replicate (CAUCHY_MAX_NODES - n) 0
           num_nodes := n }) := by
  have hlen : (natToBytes 4 n ++ (((List.range n).map f).map (natToBytes 8)).flatten).length
      = 4 + 8 * n := by
    rw [List.length_append, natToBytes_length, chunks_flatten_length, List.length_map,
      List.length_range]
  have htake : (natToBytes 4 n ++ (((List.range n).map f).map (natToBytes 8)).flatten).take 4
      = natToBytes 4 n := List.take_left' (natToBytes_length 4 n)
  have hdrop : (natToBytes 4 n ++ (((List.range n).map f).map (natToBytes 8)).flatten).drop 4
      = (((List.range n).map f).map (natToBytes 8)).flatten :=
    List.drop_left' (natToBytes_length 4 n)
  have hparse : bytesToNat
      ((natToBytes 4 n ++ (((List.range n).map f).map (natToBytes 8)).flatten).take 4) = n := by
    rw [htake]
    exact bytesToNat_natToBytes_of_lt 4 n
      (lt_of_le_of_lt hn (by norm_num [CAUCHY_MAX_NODES]))
  simp only [cauchy_vclock_deserialize, hparse]
  rw [if_neg (show ¬ (natToBytes 4 n ++
      (((List.range n).map f).map (natToBytes 8)).flatten).length < 4 from by
    rw [hlen]; omega)]
  rw [if_neg (show ¬ n > CAUCHY_MAX_NODES from by omega)]
  rw [if_neg (show ¬ (natToBytes 4 n ++
      (((List.range n).map f).map (natToBytes 8)).flatten).length < 4 + n * 8 from by
    rw [hlen]; omega)]
  refine congrArg _
    (congrArg (fun e => VClock.mk (e ++ List.replicate (CAUCHY_MAX_NODES - n) 0) n) ?_)
  refine List.map_congr_left ?_
  intro i hi
  rw [List.mem_range] at hi
  rw [hdrop, chunks_flatten_drop_take _ i (by rw [List.length_map, List.length_range]; omega),
    getD_map_range f n i hi]
  exact bytesToNat_natToBytes_of_lt 8 (f i) (by rw [← u64_mod_as_bytes]; exact hf i hi)

theorem gcounter_deserialize_of_wire (gc0 : GCounter) (n : Nat) (f : Nat → Nat)
    (hn : n ≤ CAUCHY_MAX_NODES) (hf : ∀ i < n, f i < U64_MOD) :
    cauchy_gcounter_deserialize gc0
        (natToBytes 4 n ++ (((List.range n).map f).map (natToBytes 8)).flatten)
      = (CauchyResult.OK,
         { counts := (List.range n).map f ++ List.replicate (CAUCHY_MAX_NODES - n) 0
           num_nodes := n }) := by
  have hlen : (natToBytes 4 n ++ (((List.range n).map f).map (natToBytes 8)).flatten).length
      = 4 + 8 * n := by
    rw [List.length_append, natToBytes_length, chunks_flatten_length, List.length_map,
      List.length_range]
  have htake : (natToBytes 4 n ++ (((List.range n).map f).map (natToBytes 8)).flatten).take 4
      = natToBytes 4 n := List.take_left' (natToBytes_length 4 n)
  have hdrop : (natToBytes 4 n ++ (((List.range n).map f).map (natToBytes 8)).flatten).drop 4
      = (((List.range n).map f).map (natToBytes 8)).flatten :=
    List.drop_left' (natToBytes_length 4 n)
  have hparse : bytesToNat
      ((natToBytes 4 n ++ (((List.range n).map f).map (natToBytes 8)).flatten).take 4) = n := by
    rw [htake]
    exact bytesToNat_natToBytes_of_lt 4 n
      (lt_of_le_of_lt hn (by norm_num [CAUCHY_MAX_NODES]))
  simp only [cauchy_gcounter_deserialize, hparse]
  rw [if_neg (show ¬ (natToBytes 4 n ++
      (((List.range n).map f).map (natToBytes 8)).flatten).length < 4 from by
    rw [hlen]; omega)]
  rw [if_neg (show ¬ n > CAUCHY_MAX_NODES from by omega)]
  rw [if_neg (show ¬ (natToBytes 4 n ++
      (((List.range n).map f).map (natToBytes 8)).flatten).length < 4 + n * 8 from by
    rw [hlen]; omega)]
  refine congrArg _
    (congrArg (fun e => GCounter.mk (e ++ List.replicate (CAUCHY_MAX_NODES - n) 0) n) ?_)
  refine List.map_congr_left ?_
  intro i hi
  rw [List.mem_range] at hi
  rw [hdrop, chunks_flatten_drop_take _ i (by rw [List.length_map, List.length_range]; omega),
    getD_map_range f n i hi]
  exact bytesToNat_natToBytes_of_lt 8 (f i) (by rw [← u64_mod_as_bytes]; exact hf i hi)

theorem take8_of_wire (x : Nat) (rest : List Nat) :
    (natToBytes 8 x ++ rest).take 8 = natToBytes 8 x :=
  List.take_left' (natToBytes_length 8 x)

theorem drop8_of_wire (x : Nat) (rest : List Nat) :
    (natToBytes 8 x ++ rest).drop 8 = rest :=
  List.drop_left' (natToBytes_length 8 x)

theorem lww_deserialize_wire (reg0 : LWWRegister) (ts node vs : Nat) (val : List Nat)
    (hts : ts < U64_MOD) (hnode : node < U64_MOD)
    (hvs : vs ≤ CAUCHY_LWW_MAX_VALUE_SIZE) (hval : val.length = vs) :
    cauchy_lww_deserialize reg0
        (natToBytes 8 ts ++ (natToBytes 8 node ++ (natToBytes 8 vs ++ val)))
      = (CauchyResult.OK,
         { value := val.take vs ++ reg0.value.drop vs
           value_size := vs
           timestamp := ts
           node_id := node }) := by
  have hlenB : (natToBytes 8 ts ++ (natToBytes 8 node ++ (natToBytes 8 vs ++ val))).length
      = 24 + vs := by
    rw [List.length_append, List.length_append, List.length_append,
      natToBytes_length, natToBytes_length, natToBytes_length, hval]
    omega
  have hd16 : (natToBytes 8 ts ++ (natToBytes 8 node ++ (natToBytes 8 vs ++ val))).drop 16
      = natToBytes 8 vs ++ val := by
    rw [show (16 : Nat) = 8 + 8 from rfl, ← List.drop_drop, drop8_of_wire, drop8_of_wire]
  have hd24 : (natToBytes 8 ts ++ (natToBytes 8 node ++ (natToBytes 8 vs ++ val))).drop 24
      = val := by
    rw [show (24 : Nat) = 16 + 8 from rfl, ← List.drop_drop, hd16, drop8_of_wire]
  have hbound : (256 : Nat) ^ 8 = U64_MOD := u64_mod_as_bytes.symm
  simp only [cauchy_lww_deserialize, hd24, hd16, drop8_of_wire, take8_of_wire,
    bytesToNat_natToBytes]
  rw [Nat.mod_eq_of_lt (show ts < 256 ^ 8 from by omega),
    Nat.mod_eq_of_lt (show node < 256 ^ 8 from by omega),
    Nat.mod_eq_of_lt (show vs < 256 ^ 8 from by
      have h256 : CAUCHY_LWW_MAX_VALUE_SIZE < 256 ^ 8 := by norm_num [CAUCHY_LWW_MAX_VALUE_SIZE]
      omega)]
  rw [if_neg (show ¬ (natToBytes 8 ts ++ (natToBytes 8 node ++ (natToBytes 8 vs ++ val))).length
      < 24 from by rw [hlenB]; omega)]
  rw [if_neg (show ¬ vs > CAUCHY_LWW_MAX_VALUE_SIZE from by omega)]
  rw [if_neg (show ¬ (natToBytes 8 ts ++ (natToBytes 8 node ++ (natToBytes 8 vs ++ val))).length
      < 24 + vs from by rw [hlenB]; omega)]
  rw [copyIntoBuffer, List.take_take, min_self]

theorem vclock_equals_of_entryAt (a b : VClock)
    (h : ∀ i, vclockEntryAt a i = vclockEntryAt b i) :
    cauchy_vclock_equals a b = true := by
  have hL : ((List.range (if a.num_nodes > b.num_nodes then a.num_nodes else b.num_nodes)).any
      fun i => decide (vclockEntryAt a i < vclockEntryAt b i)) = false := by
    cases hany : ((List.range (if a.num_nodes > b.num_nodes then a.num_nodes else b.num_nodes)).any
        fun i => decide (vclockEntryAt a i < vclockEntryAt b i)) with
    | false => rfl
    | true =>
      obtain ⟨i, hi⟩ := (vclock_less_flag_iff a b).mp hany
      have := h i; omega
  have hG : ((List.range (if a.num_nodes > b.num_nodes then a.num_nodes else b.num_nodes)).any
      fun i => decide (vclockEntryAt a i > vclockEntryAt b i)) = false := by
    cases hany : ((List.range (if a.num_nodes > b.num_nodes then a.num_nodes else b.num_nodes)).any
        fun i => decide (vclockEntryAt a i > vclockEntryAt b i)) with
    | false => rfl
    | true =>
      obtain ⟨i, hi⟩ := (vclock_greater_flag_iff a b).mp hany
      have := h i; omega
  simp only [cauchy_vclock_equals]
  rw [vclock_compare_flags, hL, hG]
  rfl

/-- Claim C5: serializing a valid vector clock, G-Counter or LWW-Register
into a large-enough buffer returns a nonzero byte count, deserializing
those bytes into a fresh instance returns CAUCHY_OK, and the result
equals the original under the type's equality (and has the same
num_nodes for the clock and counter). -/
theorem c5_serialization_round_trip (vc : VClock) (gc : GCounter) (reg : LWWRegister)
    (vbs gbs lbs : Nat)
    (hv1 : vc.num_nodes ≤ CAUCHY_MAX_NODES)
    (hv3 : ∀ i < vc.num_nodes, vc.entries.getD i 0 < U64_MOD)
    (hvb : cauchy_vclock_serialized_size vc ≤ vbs)
    (hg1 : gc.num_nodes ≤ CAUCHY_MAX_NODES)
    (hg3 : ∀ i < gc.num_nodes, gc.counts.getD i 0 < U64_MOD)
    (hgb : cauchy_gcounter_serialized_size gc ≤ gbs)
    (hl1 : reg.value_size ≤ CAUCHY_LWW_MAX_VALUE_SIZE)
    (hl2 : reg.value.length = CAUCHY_LWW_MAX_VALUE_SIZE)
    (hl3 : reg.timestamp < U64_MOD) (hl4 : reg.node_id < U64_MOD)
    (hlb : cauchy_lww_serialized_size reg ≤ lbs) :
    ((cauchy_vclock_serialize vc vbs).1 ≠ 0 ∧
     (cauchy_vclock_deserialize (cauchy_vclock_init 0) (cauchy_vclock_serialize vc vbs).2).1
       = CauchyResult.OK ∧
     (cauchy_vclock_deserialize (cauchy_vclock_init 0)
       (cauchy_vclock_serialize vc vbs).2).2.num_nodes = vc.num_nodes ∧
     cauchy_vclock_equals
       (cauchy_vclock_deserialize (cauchy_vclock_init 0) (cauchy_vclock_serialize vc vbs).2).2 vc
       = true) ∧
    ((cauchy_gcounter_serialize gc gbs).1 ≠ 0 ∧
     (cauchy_gcounter_deserialize (cauchy_gcounter_init 0) (cauchy_gcounter_serialize gc gbs).2).1
       = CauchyResult.OK ∧
     (cauchy_gcounter_deserialize (cauchy_gcounter_init 0)
       (cauchy_gcounter_serialize gc gbs).2).2.num_nodes = gc.num_nodes ∧
     cauchy_gcounter_equals
       (cauchy_gcounter_deserialize (cauchy_gcounter_init 0)
         (cauchy_gcounter_serialize gc gbs).2).2 gc = true) ∧
    ((cauchy_lww_serialize reg lbs).1 ≠ 0 ∧
     (cauchy_lww_deserialize cauchy_lww_init (cauchy_lww_serialize reg lbs).2).1
       = CauchyResult.OK ∧
     cauchy_lww_equals
       (cauchy_lww_deserialize cauchy_lww_init (cauchy_lww_serialize reg lbs).2).2 reg
       = true) := by
  simp only [cauchy_vclock_serialized_size] at hvb
  simp only [cauchy_gcounter_serialized_size] at hgb
  simp only [cauchy_lww_serialized_size] at hlb
  have hserv : cauchy_vclock_serialize vc vbs
      = (4 + vc.num_nodes * 8,
         natToBytes 4 vc.num_nodes ++
           (((List.range vc.num_nodes).map (fun i => vc.entries.getD i 0)).map
             (natToBytes 8)).flatten) := by
    simp only [cauchy_vclock_serialize, cauchy_vclock_serialized_size]
    rw [if_neg (by omega)]
  have hdeserv := vclock_deserialize_of_wire (cauchy_vclock_init 0) vc.num_nodes
    (fun i => vc.entries.getD i 0) hv1 hv3
  have hserg : cauchy_gcounter_serialize gc gbs
      = (4 + gc.num_nodes * 8,
         natToBytes 4 gc.num_nodes ++
           (((List.range gc.num_nodes).map (fun i => gc.counts.getD i 0)).map
             (natToBytes 8)).flatten) := by
    simp only [cauchy_gcounter_serialize, cauchy_gcounter_serialized_size]
    rw [if_neg (by omega)]
  have hdeserg := gcounter_deserialize_of_wire (cauchy_gcounter_init 0) gc.num_nodes
    (fun i => gc.counts.getD i 0) hg1 hg3
  have hserl : cauchy_lww_serialize reg lbs
      = (8 + 8 + 8 + reg.value_size,
         natToBytes 8 reg.timestamp ++ (natToBytes 8 reg.node_id ++
           (natToBytes 8 reg.value_size ++ reg.value.take reg.value_size))) := by
    simp only [cauchy_lww_serialize, cauchy_lww_serialized_size]
    rw [if_neg (by omega)]
    rw [List.append_assoc, List.append_assoc]
  have hdeserl := lww_deserialize_wire cauchy_lww_init reg.timestamp reg.node_id
    reg.value_size (reg.value.take reg.value_size) hl3 hl4 hl1
    (by rw [List.length_take]; omega)
  refine ⟨⟨?_, ?_, ?_, ?_⟩, ⟨?_, ?_, ?_, ?_⟩, ?_, ?_, ?_⟩
  · rw [hserv]; simp
  · rw [hserv, hdeserv]
  · rw [hserv, hdeserv]
  · rw [hserv, hdeserv]
    apply vclock_equals_of_entryAt
    intro i
    by_cases hi : i < vc.num_nodes
    · simp only [vclockEntryAt]
      rw [if_pos hi, if_pos hi]
      rw [List.getD_append _ _ _ i (by rw [List.length_map, List.length_range]; omega)]
      rw [getD_map_range _ _ _ hi]
    · simp only [vclockEntryAt]
      rw [if_neg hi, if_neg hi]
  · rw [hserg]; simp
  · rw [hserg, hdeserg]
  · rw [hserg, hdeserg]
  · rw [hserg, hdeserg]
    simp only [cauchy_gcounter_equals]
    rw [if_neg (show ¬ (gc.num_nodes ≠ gc.num_nodes) from fun h => h rfl)]
    rw [List.all_eq_true]
    intro i hi
    rw [List.mem_range] at hi
    simp only [beq_iff_eq]
    rw [List.getD_append _ _ _ i (by rw [List.length_map, List.length_range]; omega)]
    rw [getD_map_range _ _ _ hi]
  · rw [hserl]; simp
  · rw [hserl, hdeserl]
  · rw [hserl, hdeserl]
    have hvaltake : (((reg.value.take reg.value_size).take reg.value_size) ++
        cauchy_lww_init.value.drop reg.value_size).take reg.value_size
        = reg.value.take reg.value_size := by
      rw [List.take_take, min_self]
      exact List.take_left' (by rw [List.length_take]; omega)
    simp only [cauchy_lww_equals]
    rw [hvaltake]
    simp

/-- Witness for Claim C5 at a concrete clock, counter and register. -/
theorem c5_serialization_round_trip_witness :
    ((cauchy_vclock_serialize vcWitness 100).1 ≠ 0 ∧
     (cauchy_vclock_deserialize (cauchy_vclock_init 0) (cauchy_vclock_serialize vcWitness 100).2).1
       = CauchyResult.OK ∧
     (cauchy_vclock_deserialize (cauchy_vclock_init 0)
       (cauchy_vclock_serialize vcWitness 100).2).2.num_nodes = vcWitness.num_nodes ∧
     cauchy_vclock_equals
       (cauchy_vclock_deserialize (cauchy_vclock_init 0)
         (cauchy_vclock_serialize vcWitness 100).2).2 vcWitness = true) ∧
    ((cauchy_gcounter_serialize gcWitnessB 100).1 ≠ 0 ∧
     (cauchy_gcounter_deserialize (cauchy_gcounter_init 0)
       (cauchy_gcounter_serialize gcWitnessB 100).2).1 = CauchyResult.OK ∧
     (cauchy_gcounter_deserialize (cauchy_gcounter_init 0)
       (cauchy_gcounter_serialize gcWitnessB 100).2).2.num_nodes = gcWitnessB.num_nodes ∧
     cauchy_gcounter_equals
       (cauchy_gcounter_deserialize (cauchy_gcounter_init 0)
         (cauchy_gcounter_serialize gcWitnessB 100).2).2 gcWitnessB = true) ∧
    ((cauchy_lww_serialize lwwSerWitness 100).1 ≠ 0 ∧
     (cauchy_lww_deserialize cauchy_lww_init (cauchy_lww_serialize lwwSerWitness 100).2).1
       = CauchyResult.OK ∧
     cauchy_lww_equals
       (cauchy_lww_deserialize cauchy_lww_init (cauchy_lww_serialize lwwSerWitness 100).2).2
       lwwSerWitness = true) :=
  c5_serialization_round_trip vcWitness gcWitnessB lwwSerWitness 100 100 100
    (by decide) (by decide) (by decide) (by decide) (by decide) (by decide)
    (by decide) (by decide) (by decide) (by decide) (by decide)

-- 2P-Set tombstone permanence (Claim C6).

theorem foldl_count_eq_countP (q : List Nat → Bool) (l : List (List Nat)) :
    ∀ c, l.foldl (fun c e => if ¬ q e then c + 1 else c) c
      = c + l.countP (fun e => ! q e) := by
  induction l with
  | nil => intro c; simp
  | cons a t ih =>
    intro c
    simp only [List.foldl_cons, List.countP_cons]
    by_cases ha : q a = true
    · rw [if_neg (by simp [ha])]
      rw [ih c]
      simp [ha]
    · rw [if_pos (by simp [ha])]
      rw [ih (c + 1)]
      simp only [Bool.not_eq_true] at ha
      simp [ha]
      omega

/-- Claim C6: once x is in the removed G-Set of a 2P-Set, a subsequent
add(x) returns OK and leaves the state unchanged, contains(x) is false,
and x contributes nothing to the count (filtering x out of the added
elements does not change it); the add("x"), remove("x"), add("x")
sequence ends with contains false and count 0. -/
theorem c6_2pset_tombstone (s : TwoPSet) (x : List Nat)
    (hx : cauchy_gset_contains s.removed x = true) :
    (cauchy_2pset_add s x = (CauchyResult.OK, s) ∧
     cauchy_2pset_contains s x = false ∧
     cauchy_2pset_count s
       = ((gset_elems s.added).filter (fun e => !(e == x))).countP
           (fun e => ! cauchy_gset_contains s.removed e)) ∧
    cauchy_2pset_contains (cauchy_2pset_add (cauchy_2pset_remove
      (cauchy_2pset_add (cauchy_2pset_create 16) xBytes).2 xBytes).2 xBytes).2 xBytes
      = false ∧
    cauchy_2pset_count (cauchy_2pset_add (cauchy_2pset_remove
      (cauchy_2pset_add (cauchy_2pset_create 16) xBytes).2 xBytes).2 xBytes).2 = 0 := by
  refine ⟨⟨?_, ?_, ?_⟩, by decide, by decide⟩
  · simp only [cauchy_2pset_add]
    rw [if_pos hx]
  · simp only [cauchy_2pset_contains, hx]
    simp
  · simp only [cauchy_2pset_count]
    rw [foldl_count_eq_countP, List.countP_filter, Nat.zero_add]
    apply List.countP_congr
    intro e _
    by_cases hce : cauchy_gset_contains s.removed e = true
    · simp [hce]
    · have hne : ¬ (e == x) = true := by
        intro hbeq
        rw [beq_iff_eq] at hbeq
        rw [hbeq] at hce
        exact hce hx
      simp only [Bool.not_eq_true] at hce
      simp [hce, hne]

/-- Witness for Claim C6 at the add/remove state for "x". -/
theorem c6_2pset_tombstone_witness :
    cauchy_2pset_add twoPWitness xBytes = (CauchyResult.OK, twoPWitness) ∧
    cauchy_2pset_contains twoPWitness xBytes = false :=
  have h := c6_2pset_tombstone twoPWitness xBytes (by decide)
  ⟨h.1.1, h.1.2.1⟩

-- OR-Set add-wins (Claim C1).

/-- Claim C1: with R1 and R2 both holding "k" under the same tag
T0 = (1, 1), after R1.remove("k") and R2.add("k") (fresh tag T2 = (2,1)),
both merge orders contain "k" with exactly one non-removed entry for "k",
the one tagged T2. -/
theorem c1_orset_add_wins :
    orsetActiveTagsFor orsetR1 kBytes = [cauchy_uid_create 1 1] ∧
    orsetActiveTagsFor orsetR2 kBytes = [cauchy_uid_create 1 1] ∧
    cauchy_orset_contains (cauchy_orset_merge orsetR1r orsetR2a).2 kBytes = true ∧
    cauchy_orset_contains (cauchy_orset_merge orsetR2a orsetR1r).2 kBytes = true ∧
    orsetActiveTagsFor (cauchy_orset_merge orsetR1r orsetR2a).2 kBytes
      = [cauchy_uid_create 2 1] ∧
    orsetActiveTagsFor (cauchy_orset_merge orsetR2a orsetR1r).2 kBytes
      = [cauchy_uid_create 2 1] := by
  decide

-- OR-Set active_count invariant (Claim C7).

/-- Counterexample to Claim C7 as stated: adding "k" twice gives
active_count 2 while only one distinct payload key has a non-removed
entry, so cauchy_orset_count does not equal the number of distinct active
payload keys. -/
theorem c7_active_count_counterexample :
    cauchy_orset_count
        (cauchy_orset_add (cauchy_orset_add (cauchy_orset_init 16 1) kBytes).2 kBytes).2 = 2 ∧
    orsetDistinctActiveKeys
        (cauchy_orset_add (cauchy_orset_add (cauchy_orset_init 16 1) kBytes).2 kBytes).2 = 1 ∧
    cauchy_orset_count
        (cauchy_orset_add (cauchy_orset_add (cauchy_orset_init 16 1) kBytes).2 kBytes).2 ≠
      orsetDistinctActiveKeys
        (cauchy_orset_add (cauchy_orset_add (cauchy_orset_init 16 1) kBytes).2 kBytes).2 := by
  decide

theorem countP_flatten_set (p : ORSetEntry → Bool) :
    ∀ (bs : List (List ORSetEntry)) (i : Nat) (c : List ORSetEntry), i < bs.length →
      ((bs.set i c).flatten).countP p + ((bs.getD i []).countP p)
        = (bs.flatten).countP p + c.countP p := by
  intro bs
  induction bs with
  | nil => intro i c hi; simp at hi
  | cons b bs ih =>
    intro i c hi
    cases i with
    | zero =>
      simp only [List.set_cons_zero, List.flatten_cons, List.countP_append,
        List.getD_cons_zero]
      omega
    | succ i =>
      simp only [List.set_cons_succ, List.flatten_cons, List.countP_append,
        List.getD_cons_succ]
      have := ih i c (by simpa using hi)
      omega

theorem countP_markFirst (h : Nat) (tag : CauchyUID) :
    ∀ (chain : List ORSetEntry) (e : ORSetEntry),
      chain.find? (orsetTagMatches h tag) = some e → e.removed = false →
      (markFirstRemoved chain h tag).countP (fun e => !e.removed) + 1
        = chain.countP (fun e => !e.removed) := by
  intro chain
  induction chain with
  | nil => intro e hfind _; simp [List.find?] at hfind
  | cons a t ih =>
    intro e hfind hact
    by_cases hm : orsetTagMatches h tag a = true
    · rw [List.find?_cons_of_pos _ hm] at hfind
      injection hfind with he
      subst he
      simp only [markFirstRemoved, if_pos hm, List.countP_cons]
      simp [hact]
    · rw [List.find?_cons_of_neg _ hm] at hfind
      simp only [markFirstRemoved, if_neg hm, List.countP_cons]
      have := ih e hfind hact
      omega

theorem countP_map_mark (q : ORSetEntry → Bool) (hq : ∀ e, q e = true → e.removed = false) :
    ∀ chain : List ORSetEntry,
      (chain.map (fun e => if q e then { e with removed := true } else e)).countP
          (fun e => !e.removed) + chain.countP q
        = chain.countP (fun e => !e.removed) := by
  intro chain
  induction chain with
  | nil => simp
  | cons a t ih =>
    simp only [List.map_cons, List.countP_cons]
    by_cases ha : q a = true
    · have hra := hq a ha
      simp only [if_pos ha]
      simp [hra, ha] at ih ⊢
      omega
    · simp only [if_neg ha]
      simp [ha] at ih ⊢
      omega

theorem orset_inv_add (s : ORSet) (d : List Nat) (hinv : ORSetInv s) :
    ORSetInv (cauchy_orset_add s d).2 := by
  obtain ⟨hlen, hpos, hcnt⟩ := hinv
  simp only [cauchy_orset_add]
  split
  · exact ⟨hlen, hpos, hcnt⟩
  · have hidx : hash_data d % s.num_buckets < s.buckets.length := by
      rw [hlen]; exact Nat.mod_lt _ hpos
    have heq := countP_flatten_set (fun e => !e.removed) s.buckets
      (hash_data d % s.num_buckets)
      ({ data := d
         hash := hash_data d
         tag := cauchy_uid_create s.node_id ((s.timestamp + 1) % U64_MOD)
         removed := false } :: s.buckets.getD (hash_data d % s.num_buckets) []) hidx
    have hcons : (({ data := d, hash := hash_data d,
                     tag := cauchy_uid_create s.node_id ((s.timestamp + 1) % U64_MOD),
                     removed := false } : ORSetEntry) ::
          s.buckets.getD (hash_data d % s.num_buckets) []).countP (fun e => !e.removed)
        = (s.buckets.getD (hash_data d % s.num_buckets) []).countP (fun e => !e.removed) + 1 := by
      simp [List.countP_cons]
    rw [hcons] at heq
    refine ⟨?_, hpos, ?_⟩
    · simp only [List.length_set]
      exact hlen
    · simp only [orsetActiveEntryCount] at hcnt ⊢
      omega

theorem orset_inv_remove (s : ORSet) (d : List Nat) (hinv : ORSetInv s) :
    ORSetInv (cauchy_orset_remove s d).2 := by
  obtain ⟨hlen, hpos, hcnt⟩ := hinv
  simp only [cauchy_orset_remove]
  split
  · exact ⟨hlen, hpos, hcnt⟩
  · have hidx : hash_data d % s.num_buckets < s.buckets.length := by
      rw [hlen]; exact Nat.mod_lt _ hpos
    have heq := countP_flatten_set (fun e => !e.removed) s.buckets
      (hash_data d % s.num_buckets)
      ((s.buckets.getD (hash_data d % s.num_buckets) []).map
        (fun e => if orsetRemoveMatches (hash_data d) d e
                  then { e with removed := true } else e)) hidx
    have hmk := countP_map_mark (orsetRemoveMatches (hash_data d) d)
      (fun e he => by
        simp only [orsetRemoveMatches, Bool.and_eq_true, Bool.not_eq_true'] at he
        exact he.1.1)
      (s.buckets.getD (hash_data d % s.num_buckets) [])
    refine ⟨?_, hpos, ?_⟩
    · simp only [List.length_set]
      exact hlen
    · simp only [orsetActiveEntryCount] at hcnt ⊢
      omega

theorem orset_inv_merge_entry (dst : ORSet) (se : ORSetEntry) (hinv : ORSetInv dst) :
    ORSetInv (orset_merge_entry dst se) := by
  obtain ⟨hlen, hpos, hcnt⟩ := hinv
  cases hfind : find_entry_by_tag dst se.hash se.tag with
  | none =>
    simp only [orset_merge_entry, hfind]
    have hidx : se.hash % dst.num_buckets < dst.buckets.length := by
      rw [hlen]; exact Nat.mod_lt _ hpos
    have heq := countP_flatten_set (fun e => !e.removed) dst.buckets
      (se.hash % dst.num_buckets)
      (se :: dst.buckets.getD (se.hash % dst.num_buckets) []) hidx
    rw [List.countP_cons] at heq
    refine ⟨?_, hpos, ?_⟩
    · simp only [List.length_set]
      exact hlen
    · simp only [orsetActiveEntryCount] at hcnt ⊢
      by_cases hr : se.removed = true
      · rw [if_neg (show ¬ (!se.removed) = true from by rw [hr]; simp)] at heq
        rw [if_neg (show ¬ (!se.removed) = true from by rw [hr]; simp)]
        omega
      · simp only [Bool.not_eq_true] at hr
        rw [if_pos (show (!se.removed) = true from by rw [hr]; simp)] at heq
        rw [if_pos (show (!se.removed) = true from by rw [hr]; simp)]
        omega
  | some existing =>
    simp only [orset_merge_entry, hfind]
    split
    · rename_i hcond
      rw [Bool.and_eq_true, Bool.not_eq_true'] at hcond
      have hidx : se.hash % dst.num_buckets < dst.buckets.length := by
        rw [hlen]; exact Nat.mod_lt _ hpos
      have hfind2 : (dst.buckets.getD (se.hash % dst.num_buckets) []).find?
          (orsetTagMatches se.hash se.tag) = some existing := by
        simpa [find_entry_by_tag] using hfind
      have hmk := countP_markFirst se.hash se.tag
        (dst.buckets.getD (se.hash % dst.num_buckets) []) existing hfind2 hcond.2
      have heq := countP_flatten_set (fun e => !e.removed) dst.buckets
        (se.hash % dst.num_buckets)
        (markFirstRemoved (dst.buckets.getD (se.hash % dst.num_buckets) [])
          se.hash se.tag) hidx
      refine ⟨?_, hpos, ?_⟩
      · simp only [List.length_set]
        exact hlen
      · simp only [orsetActiveEntryCount] at hcnt ⊢
        omega
    · exact ⟨hlen, hpos, hcnt⟩

theorem orset_inv_foldl_merge (l : List ORSetEntry) :
    ∀ s : ORSet, ORSetInv s → ORSetInv (l.foldl orset_merge_entry s) := by
  induction l with
  | nil => intro s h; exact h
  | cons e t ih => intro s h; exact ih _ (orset_inv_merge_entry s e h)

theorem orset_inv_apply (s : ORSet) (op : ORSetOp) (h : ORSetInv s) :
    ORSetInv (orset_apply s op) := by
  cases op with
  | add d => exact orset_inv_add s d h
  | remove d => exact orset_inv_remove s d h
  | mergeFrom src => exact orset_inv_foldl_merge (src.buckets.flatten) s h

theorem flatten_replicate_nil (n : Nat) :
    (List.replicate n ([] : List ORSetEntry)).flatten = [] := by
  induction n with
  | zero => rfl
  | succ n ih => simp [List.replicate_succ, ih]

theorem orset_inv_init (cap node : Nat) : ORSetInv (cauchy_orset_init cap node) := by
  refine ⟨by simp [cauchy_orset_init], ?_, ?_⟩
  · simp only [cauchy_orset_init]
    split <;> omega
  · simp [cauchy_orset_init, orsetActiveEntryCount, flatten_replicate_nil]

theorem orset_inv_run (ops : List ORSetOp) :
    ∀ s : ORSet, ORSetInv s → ORSetInv (orset_run s ops) := by
  induction ops with
  | nil => intro s h; exact h
  | cons op t ih => intro s h; exact ih _ (orset_inv_apply s op h)

/-- Claim C7 (amended): after every sequence of add / remove / merge
operations on an initialized OR-Set, active_count (the value of
cauchy_orset_count) equals the number of entries with removed = false --
counting every non-removed entry (tag), not distinct payload keys. -/
theorem c7_active_count_invariant (cap node : Nat) (ops : List ORSetOp) :
    cauchy_orset_count (orset_run (cauchy_orset_init cap node) ops)
      = orsetActiveEntryCount (orset_run (cauchy_orset_init cap node) ops) :=
  (orset_inv_run ops (cauchy_orset_init cap node) (orset_inv_init cap node)).2.2
